import Mathlib

/-!
Shallow embedding of the GitHub-achievements dashboard (src/src/App.tsx and
the RepositoryList component) and proofs about its achievement evaluator,
progress estimator, fetch handlers, repository sorting and date formatting.

Modelling conventions:
* JavaScript numbers holding GitHub counts (public_repos, followers, ...)
  are nonnegative integers and are embedded as `Nat`.
* Timestamps (`Date.now()`, parsed `created_at` / `updated_at` strings) are
  embedded as integer epoch milliseconds (`Int`); `new Date(s).getTime()` is
  abstracted away by storing the parsed value directly.
* JavaScript arithmetic on these values (divisions in the progress estimator
  and the day computations) is exact at every branch point exercised here, so
  it is embedded as exact rational arithmetic over `ℚ`.
* `Array.prototype.sort` with a consistent comparator is, per the ECMAScript
  specification, a stable sort; it is embedded as `List.mergeSort` with the
  boolean relation "comparator result ≤ 0".
-/

/-- Profile record, mapped from the GitHub user response in fetchUserData. -/
structure UserData where
  login : String
  avatarUrl : String
  publicRepos : Nat
  followers : Nat
  following : Nat
  createdAt : Int
  deriving DecidableEq

/-- Raw fields consumed from the GET /users/{username} response body. -/
structure GithubUserJson where
  login : String
  avatar_url : String
  public_repos : Nat
  followers : Nat
  following : Nat
  created_at : Int
  deriving DecidableEq

/-- Repository record from the GET /users/{username}/repos response. -/
structure Repository where
  id : Nat
  name : String
  full_name : String
  description : Option String
  html_url : String
  stargazers_count : Nat
  forks_count : Nat
  watchers_count : Nat
  language : Option String
  updated_at : Int
  topics : List String
  isPrivate : Bool
  deriving DecidableEq

/-- A toast notification, as raised through the sonner toast API. -/
inductive Toast where
  | error (title : String) (description : Option String)
  | success (title : String) (description : String)
  deriving DecidableEq

/-- Outcome of one fetch call: a parsed 2xx body, a non-ok HTTP status, or a
transport-level failure thrown before any status was obtained. -/
inductive FetchResponse (α : Type) where
  | ok (data : α)
  | httpError (status : Nat)
  | networkFailure
  deriving DecidableEq

/-- The App component state touched by fetchUserData: the persisted profile
slot, the persisted unlocked-achievement slot, and the loading flag. -/
structure AppState where
  userData : Option UserData
  unlockedAchievements : Option (List String)
  isLoading : Bool
  deriving DecidableEq

/-- simulateUnlockedAchievements from App.tsx: additive threshold rules over
the profile record, evaluated at wall-clock time `now` (epoch ms). -/
def simulateUnlockedAchievements (user : UserData) (now : Int) : List String :=
  let unlocked : List String := []
  let unlocked := if user.publicRepos ≥ 2 then unlocked ++ ["yolo", "quickdraw"] else unlocked
  let unlocked :=
    if user.publicRepos ≥ 5 then unlocked ++ ["open-sourcerer", "heart-on-sleeve"] else unlocked
  let unlocked := if user.followers ≥ 10 then unlocked ++ ["pair-extraordinaire"] else unlocked
  let accountAge : Int := now - user.createdAt
  let daysOld : ℚ := (accountAge : ℚ) / (1000 * 60 * 60 * 24)
  let unlocked := if daysOld > 365 then unlocked ++ ["pull-shark"] else unlocked
  unlocked

/-- The floating `daysOld > 365` guard is exact: it holds iff the account age
in milliseconds exceeds 365 days worth of milliseconds. -/
theorem daysOld_gt_iff (x : Int) :
    ((x : ℚ) / (1000 * 60 * 60 * 24) > 365) ↔ 365 * 86400000 < x := by
  rw [gt_iff_lt, lt_div_iff₀ (by norm_num : (0 : ℚ) < 1000 * 60 * 60 * 24)]
  constructor
  · intro h
    exact_mod_cast (by push_cast; linarith : ((365 * 86400000 : Int) : ℚ) < (x : ℚ))
  · intro h
    have h' : ((365 * 86400000 : Int) : ℚ) < (x : ℚ) := by exact_mod_cast h
    push_cast at h'
    linarith

/-- Closed form of the simulator with the date guard written over `Int`. -/
theorem simulateUnlockedAchievements_eq (user : UserData) (now : Int) :
    simulateUnlockedAchievements user now =
      ((if user.publicRepos ≥ 2 then ["yolo", "quickdraw"] else []) ++
        (if user.publicRepos ≥ 5 then ["open-sourcerer", "heart-on-sleeve"] else []) ++
        (if user.followers ≥ 10 then ["pair-extraordinaire"] else []) ++
        (if 365 * 86400000 < now - user.createdAt then ["pull-shark"] else [])) := by
  simp only [simulateUnlockedAchievements, daysOld_gt_iff]
  split_ifs <;> simp

/-- Membership in a conditionally included block of ids. -/
theorem mem_ite_nil {c : Prop} [Decidable c] {l : List String} {id : String} :
    (id ∈ if c then l else []) ↔ c ∧ id ∈ l := by
  split_ifs with h <;> simp [h]

/-- Claim C1: membership in the result of simulateUnlockedAchievements is
exactly the rule table ("yolo"/"quickdraw" iff publicRepos ≥ 2,
"open-sourcerer"/"heart-on-sleeve" iff publicRepos ≥ 5,
"pair-extraordinaire" iff followers ≥ 10, "pull-shark" iff the account is
strictly older than 365 days, nothing else ever), and in particular the
result is empty for young, small profiles. -/
theorem simulateUnlockedAchievements_ruleTable (user : UserData) (now : Int) :
    (∀ id : String,
      id ∈ simulateUnlockedAchievements user now ↔
        ((id = "yolo" ∨ id = "quickdraw") ∧ 2 ≤ user.publicRepos) ∨
        ((id = "open-sourcerer" ∨ id = "heart-on-sleeve") ∧ 5 ≤ user.publicRepos) ∨
        (id = "pair-extraordinaire" ∧ 10 ≤ user.followers) ∨
        (id = "pull-shark" ∧ 365 * 86400000 < now - user.createdAt)) ∧
    (user.followers < 10 → user.publicRepos < 2 → now - user.createdAt ≤ 365 * 86400000 →
      simulateUnlockedAchievements user now = []) := by
  constructor
  · intro id
    rw [simulateUnlockedAchievements_eq]
    simp only [ge_iff_le, List.mem_append, mem_ite_nil, List.mem_cons, List.not_mem_nil,
      or_false]
    tauto
  · intro hf hp hd
    rw [simulateUnlockedAchievements_eq]
    rw [if_neg (by omega), if_neg (by omega), if_neg (by omega), if_neg (by omega)]
    rfl

/-- A small profile used to instantiate hypotheses at concrete inputs. -/
def sampleUser (publicRepos followers : Nat) : UserData :=
  { login := "octocat", avatarUrl := "", publicRepos := publicRepos,
    followers := followers, following := 0, createdAt := 0 }

/-- Witness for C1 at a concrete young, small profile: every hypothesis holds
and the simulator returns the empty list. -/
theorem simulateUnlockedAchievements_ruleTable_witness :
    (sampleUser 1 3).followers < 10 ∧ (sampleUser 1 3).publicRepos < 2 ∧
      (0 : Int) - (sampleUser 1 3).createdAt ≤ 365 * 86400000 ∧
      simulateUnlockedAchievements (sampleUser 1 3) 0 = [] :=
  ⟨by decide, by decide, by decide,
    (simulateUnlockedAchievements_ruleTable (sampleUser 1 3) 0).2 (by decide) (by decide)
      (by decide)⟩

/-- getAchievementProgress from App.tsx, with the component state it closes
over (the persisted profile and unlocked list, both possibly null) passed
explicitly.  The switch on achievement.id is written as the equivalent chain
of equality tests; JavaScript number division is embedded as exact rational
division (exact at every value compared against here). -/
def getAchievementProgress (userData : Option UserData)
    (unlockedAchievements : Option (List String)) (achievementId : String) : ℚ :=
  match userData, unlockedAchievements with
  | some u, some unlocked =>
    if achievementId ∈ unlocked then 100
    else if achievementId = "pull-shark" then min ((u.publicRepos : ℚ) / 2 * 100) 99
    else if achievementId = "starstruck" then min ((u.followers : ℚ) / 16 * 100) 99
    else if achievementId = "open-sourcerer" then min ((u.publicRepos : ℚ) / 3 * 100) 99
    else if achievementId = "pair-extraordinaire" then min ((u.followers : ℚ) / 10 * 100) 99
    else if u.publicRepos > 0 then 25 else 0
  | _, _ => 0

/-- Modelled from the spec's words for the progressOf contract: 100 when
unlocked, otherwise the per-id clamp-to-99 linear ratio as a percentage, with
the 25/0 default for unlisted ids.  Used to compare against the embedding of
getAchievementProgress. -/
def progressOfSpec (profile : UserData) (unlockedSet : List String)
    (achievementId : String) : ℚ :=
  if achievementId ∈ unlockedSet then 100
  else if achievementId = "pull-shark" then min ((profile.publicRepos : ℚ) / 2 * 100) 99
  else if achievementId = "starstruck" then min ((profile.followers : ℚ) / 16 * 100) 99
  else if achievementId = "open-sourcerer" then min ((profile.publicRepos : ℚ) / 3 * 100) 99
  else if achievementId = "pair-extraordinaire" then min ((profile.followers : ℚ) / 10 * 100) 99
  else if profile.publicRepos > 0 then 25 else 0

/-- Claim C2: with a profile and an unlocked list present, the code's progress
function implements exactly the spec's rule (100 when unlocked, else the
clamp-to-99 per-id ratio, else the 25/0 default), and the two pull-shark
examples evaluate to 50 and to 99 (clamped from a raw 200). -/
theorem getAchievementProgress_spec :
    (∀ (u : UserData) (unlocked : List String) (achievementId : String),
        getAchievementProgress (some u) (some unlocked) achievementId =
          progressOfSpec u unlocked achievementId) ∧
    getAchievementProgress (some (sampleUser 1 0)) (some []) "pull-shark" = 50 ∧
    getAchievementProgress (some (sampleUser 4 0)) (some []) "pull-shark" = 99 ∧
    min ((4 : ℚ) / 2 * 100) 99 = min 200 99 := by
  refine ⟨fun u unlocked achievementId => rfl, ?_, ?_, by norm_num⟩ <;>
    · simp [getAchievementProgress, sampleUser]
      norm_num [min_def]

/-- Claim C10: with no profile loaded, or no unlocked list present, the
progress function returns 0 for every achievement id. -/
theorem getAchievementProgress_null_state (achievementId : String)
    (unlockedAchievements : Option (List String)) (u : UserData) :
    getAchievementProgress none unlockedAchievements achievementId = 0 ∧
    getAchievementProgress (some u) none achievementId = 0 :=
  ⟨rfl, rfl⟩

/-- A clamped ratio with nonnegative numerator stays within [0, 100]. -/
theorem min99_bounds (x : ℚ) (hx : 0 ≤ x) : 0 ≤ min x 99 ∧ min x 99 ≤ 100 :=
  ⟨le_min hx (by norm_num), le_trans (min_le_right x 99) (by norm_num)⟩

/-- Amended claim C3: the progress value always lies in [0, 100] (and the
starstruck example evaluates to 50), but it is a rational, not always an
integer. -/
theorem getAchievementProgress_bounds (userData : Option UserData)
    (unlockedAchievements : Option (List String)) (achievementId : String) :
    (0 ≤ getAchievementProgress userData unlockedAchievements achievementId ∧
      getAchievementProgress userData unlockedAchievements achievementId ≤ 100) ∧
    getAchievementProgress (some (sampleUser 0 8)) (some []) "starstruck" = 50 := by
  refine ⟨?_, by simp [getAchievementProgress, sampleUser]; norm_num [min_def]⟩
  match userData, unlockedAchievements with
  | none, _ => exact ⟨le_refl 0, show (0 : ℚ) ≤ 100 by norm_num⟩
  | some u, none => exact ⟨le_refl 0, show (0 : ℚ) ≤ 100 by norm_num⟩
  | some u, some unlocked =>
    simp only [getAchievementProgress]
    split_ifs <;>
      first
        | exact min99_bounds _ (by positivity)
        | constructor <;> norm_num

/-- Counterexample to claim C3 as stated: at a profile with one public
repository, the locked open-sourcerer progress is 100/3, which is not an
integer. -/
theorem getAchievementProgress_not_integer :
    getAchievementProgress (some (sampleUser 1 0)) (some []) "open-sourcerer" = 100 / 3 ∧
    (getAchievementProgress (some (sampleUser 1 0)) (some []) "open-sourcerer").isInt = false := by
  constructor <;>
    · simp [getAchievementProgress, sampleUser]
      norm_num [min_def, Rat.isInt]

/-- fetchUserData from App.tsx, as a state transition on the App component
state.  The HTTP interaction is represented by the already-classified
`FetchResponse`; the function returns the new state together with the toasts
raised.  `setIsLoading(true)` at entry and the `finally` reset cancel out in
the returned state, so only the final `isLoading := false` is visible. -/
def fetchUserData (username : String) (now : Int)
    (resp : FetchResponse GithubUserJson) (s : AppState) : AppState × List Toast :=
  match resp with
  | FetchResponse.httpError status =>
    if status = 404 then
      ({ s with isLoading := false },
        [Toast.error ("User not found")
          (some ("The username \"" ++ username ++ "\" does not exist on GitHub."))])
    else
      ({ s with isLoading := false },
        [Toast.error ("Failed to fetch user data") (some ("Please try again later."))])
  | FetchResponse.networkFailure =>
    ({ s with isLoading := false },
      [Toast.error ("Network error") (some ("Could not connect to GitHub API."))])
  | FetchResponse.ok data =>
    let user : UserData :=
      { login := data.login, avatarUrl := data.avatar_url, publicRepos := data.public_repos,
        followers := data.followers, following := data.following, createdAt := data.created_at }
    ({ s with userData := some user,
              unlockedAchievements := some (simulateUnlockedAchievements user now),
              isLoading := false },
      [Toast.success ("Profile loaded!") ("Viewing achievements for @" ++ username)])

/-- One of three sort orders selectable in the RepositoryList component. -/
inductive SortMode where
  | updated
  | stars
  | name
  deriving DecidableEq

/-- The RepositoryList component state touched by fetchRepositories and the
sort buttons. -/
structure RepoListState where
  repos : List Repository
  isLoading : Bool
  sortBy : SortMode
  deriving DecidableEq

/-- fetchRepositories from the RepositoryList component, as a state
transition returning the new state and the toasts raised. -/
def fetchRepositories (resp : FetchResponse (List Repository))
    (s : RepoListState) : RepoListState × List Toast :=
  match resp with
  | FetchResponse.httpError _ =>
    ({ s with isLoading := false }, [Toast.error ("Failed to fetch repositories") none])
  | FetchResponse.networkFailure =>
    ({ s with isLoading := false },
      [Toast.error ("Network error") (some ("Could not load repositories"))])
  | FetchResponse.ok data =>
    ({ s with repos := data, isLoading := false }, [])

/-- Claim C5: every failed fetch leaves prior state untouched — a failed
profile fetch (any non-ok status or a network failure) changes neither the
stored profile record nor the stored unlocked list, and a failed repository
fetch does not modify the held repository list. -/
theorem fetch_failure_preserves_state :
    (∀ (username : String) (now : Int) (status : Nat) (s : AppState),
      (fetchUserData username now (FetchResponse.httpError status) s).1.userData =
          s.userData ∧
        (fetchUserData username now (FetchResponse.httpError status) s).1.unlockedAchievements =
          s.unlockedAchievements) ∧
    (∀ (username : String) (now : Int) (s : AppState),
      (fetchUserData username now FetchResponse.networkFailure s).1.userData = s.userData ∧
        (fetchUserData username now FetchResponse.networkFailure s).1.unlockedAchievements =
          s.unlockedAchievements) ∧
    (∀ (status : Nat) (s : RepoListState),
      (fetchRepositories (FetchResponse.httpError status) s).1.repos = s.repos) ∧
    (∀ s : RepoListState,
      (fetchRepositories FetchResponse.networkFailure s).1.repos = s.repos) := by
  refine ⟨fun username now status s => ?_, fun username now s => ⟨rfl, rfl⟩,
    fun status s => rfl, fun s => rfl⟩
  simp only [fetchUserData]
  split_ifs <;> exact ⟨rfl, rfl⟩

/-- Claim C6: the profile fetch classifies failures into exactly three
outcomes — 404 raises a NotFound toast whose message contains the literal
username, any other non-ok status raises a generic ServerError toast, a
transport failure raises a NetworkError toast — and in no failure case is a
profile record produced. -/
theorem fetchUserData_error_classification (username : String) (now : Int) (s : AppState) :
    ((fetchUserData username now (FetchResponse.httpError 404) s).2 =
      [Toast.error ("User not found")
        (some ("The username \"" ++ username ++ "\" does not exist on GitHub."))]) ∧
    (∀ status : Nat, status ≠ 404 →
      (fetchUserData username now (FetchResponse.httpError status) s).2 =
        [Toast.error ("Failed to fetch user data") (some ("Please try again later."))]) ∧
    ((fetchUserData username now FetchResponse.networkFailure s).2 =
      [Toast.error ("Network error") (some ("Could not connect to GitHub API."))]) ∧
    (∀ status : Nat,
      (fetchUserData username now (FetchResponse.httpError status) s).1.userData =
        s.userData) ∧
    ((fetchUserData username now FetchResponse.networkFailure s).1.userData = s.userData) := by
  refine ⟨rfl, fun status h => ?_, rfl, fun status => ?_, rfl⟩
  · simp only [fetchUserData, if_neg h]
  · simp only [fetchUserData]
    split_ifs <;> rfl

/-- Witness for C6 at the not-found scenario username and a concrete non-404
server status: the hypothesis 500 ≠ 404 holds and the generic retry-later
toast is raised. -/
theorem fetchUserData_error_classification_witness :
    (500 : Nat) ≠ 404 ∧
      (fetchUserData ("doesnotexist123456") 0 (FetchResponse.httpError 500)
          { userData := none, unlockedAchievements := some [], isLoading := false }).2 =
        [Toast.error ("Failed to fetch user data") (some ("Please try again later."))] :=
  ⟨by decide,
    (fetchUserData_error_classification ("doesnotexist123456") 0
        { userData := none, unlockedAchievements := some [], isLoading := false }).2.1 500
      (by decide)⟩

/-- The name comparator: `a.name.localeCompare(b.name)` abstracted to a
three-valued comparison over the string order (negative when a sorts before
b, positive when after, zero on ties). -/
def strCompareInt (a b : String) : Int :=
  if a < b then -1 else if b < a then 1 else 0

/-- The comparator passed to `[...repos].sort((a, b) => ...)` in the
RepositoryList component, per selected sort mode. -/
def repoCompare (sortBy : SortMode) (a b : Repository) : Int :=
  match sortBy with
  | SortMode.stars => (b.stargazers_count : Int) - (a.stargazers_count : Int)
  | SortMode.name => strCompareInt a.name b.name
  | SortMode.updated => b.updated_at - a.updated_at

/-- "a may stay before b": the comparator is nonpositive. -/
def repoLeb (sortBy : SortMode) (a b : Repository) : Bool :=
  repoCompare sortBy a b ≤ 0

/-- sortedRepos from the RepositoryList component: a stable sort of a copy of
the fetched list under the selected comparator. -/
def sortedRepos (sortBy : SortMode) (repos : List Repository) : List Repository :=
  repos.mergeSort (repoLeb sortBy)

/-- A nonpositive name comparison is exactly the string order. -/
theorem strCompareInt_nonpos {a b : String} : strCompareInt a b ≤ 0 ↔ a ≤ b := by
  unfold strCompareInt
  split_ifs with h1 h2
  · exact ⟨fun _ => le_of_lt h1, fun _ => by norm_num⟩
  · exact ⟨fun h => by norm_num at h, fun h => absurd h (not_le.mpr h2)⟩
  · exact ⟨fun _ => le_of_not_lt h2, fun _ => le_refl 0⟩

/-- Each mode's comparator induces a transitive relation. -/
theorem repoLeb_trans (sortBy : SortMode) :
    ∀ a b c, repoLeb sortBy a b → repoLeb sortBy b c → repoLeb sortBy a c := by
  intro a b c
  cases sortBy <;>
    simp only [repoLeb, repoCompare, decide_eq_true_eq, strCompareInt_nonpos]
  · omega
  · omega
  · exact le_trans

/-- Each mode's comparator induces a total relation. -/
theorem repoLeb_total (sortBy : SortMode) :
    ∀ a b, repoLeb sortBy a b || repoLeb sortBy b a := by
  intro a b
  cases sortBy <;>
    simp only [repoLeb, repoCompare, decide_eq_true_eq, strCompareInt_nonpos,
      Bool.or_eq_true]
  · omega
  · omega
  · exact le_total a.name b.name

/-- Claim C7: for every mode, sortedRepos returns a permutation of its input,
ordered by the mode's comparator (descending timestamps for updated,
descending stars for stars, ascending names for name), ties keep their input
order, and on a non-empty input the first element of the stars sort carries
the maximum star count of the input. -/
theorem sortedRepos_spec :
    (∀ (sortBy : SortMode) (repos : List Repository),
      List.Perm (sortedRepos sortBy repos) repos) ∧
    (∀ (sortBy : SortMode) (repos : List Repository),
      (sortedRepos sortBy repos).Pairwise (fun a b => repoCompare sortBy a b ≤ 0)) ∧
    (∀ (sortBy : SortMode) (repos : List Repository) (a b : Repository),
      List.Sublist [a, b] repos → repoCompare sortBy a b = 0 →
        List.Sublist [a, b] (sortedRepos sortBy repos)) ∧
    (∀ (repos : List Repository) (r : Repository) (rest : List Repository),
      sortedRepos SortMode.stars repos = r :: rest →
        ∀ x ∈ repos, x.stargazers_count ≤ r.stargazers_count) := by
  refine ⟨fun sortBy repos => List.mergeSort_perm repos _, fun sortBy repos => ?_,
    fun sortBy repos a b hsub hzero => ?_, fun repos r rest hsort x hx => ?_⟩
  · exact (List.sorted_mergeSort (repoLeb_trans sortBy) (repoLeb_total sortBy) repos).imp
      (fun h => by simpa only [repoLeb, decide_eq_true_eq] using h)
  · exact List.pair_sublist_mergeSort (repoLeb_trans sortBy) (repoLeb_total sortBy)
      (by simp [repoLeb, hzero]) hsub
  · have hperm : List.Perm (sortedRepos SortMode.stars repos) repos :=
      List.mergeSort_perm repos _
    have hx' : x ∈ r :: rest := by
      rw [← hsort]
      exact hperm.mem_iff.mpr hx
    rcases List.mem_cons.mp hx' with rfl | hx''
    · exact le_refl _
    · have hpair := List.sorted_mergeSort (repoLeb_trans SortMode.stars)
        (repoLeb_total SortMode.stars) repos
      rw [show List.mergeSort repos (repoLeb SortMode.stars) =
            sortedRepos SortMode.stars repos from rfl, hsort] at hpair
      have hle := List.rel_of_pairwise_cons hpair hx''
      simp only [repoLeb, repoCompare, decide_eq_true_eq] at hle
      omega

/-- A minimal repository record for concrete instantiations. -/
def sampleRepo (id : Nat) (name : String) (stars : Nat) (updated : Int) : Repository :=
  { id := id, name := name, full_name := name, description := none, html_url := "",
    stargazers_count := stars, forks_count := 0, watchers_count := 0, language := none,
    updated_at := updated, topics := [], isPrivate := false }

/-- Witness for C7: two equally starred repositories keep their input order
through the stars sort, and the head of that sort dominates the star counts
of the input. -/
theorem sortedRepos_spec_witness :
    List.Sublist [sampleRepo 1 "a" 5 0, sampleRepo 2 "b" 5 0]
        [sampleRepo 1 "a" 5 0, sampleRepo 2 "b" 5 0] ∧
      repoCompare SortMode.stars (sampleRepo 1 "a" 5 0) (sampleRepo 2 "b" 5 0) = 0 ∧
      List.Sublist [sampleRepo 1 "a" 5 0, sampleRepo 2 "b" 5 0]
        (sortedRepos SortMode.stars [sampleRepo 1 "a" 5 0, sampleRepo 2 "b" 5 0]) ∧
      sortedRepos SortMode.stars [sampleRepo 1 "a" 5 0, sampleRepo 2 "b" 5 0] =
        sampleRepo 1 "a" 5 0 :: [sampleRepo 2 "b" 5 0] ∧
      ∀ x ∈ [sampleRepo 1 "a" 5 0, sampleRepo 2 "b" 5 0],
        x.stargazers_count ≤ (sampleRepo 1 "a" 5 0).stargazers_count :=
  ⟨by decide, by decide,
    sortedRepos_spec.2.2.1 SortMode.stars _ _ _ (by decide) (by decide),
    by simp [sortedRepos, List.mergeSort, List.merge, repoLeb, repoCompare, sampleRepo],
    sortedRepos_spec.2.2.2 [sampleRepo 1 "a" 5 0, sampleRepo 2 "b" 5 0]
      (sampleRepo 1 "a" 5 0) [sampleRepo 2 "b" 5 0]
      (by simp [sortedRepos, List.mergeSort, List.merge, repoLeb, repoCompare, sampleRepo])⟩

/-- Claim C8: sorting by name is idempotent — a second name sort of an
already name-sorted list returns it unchanged. -/
theorem sortedRepos_name_idempotent (repos : List Repository) :
    sortedRepos SortMode.name (sortedRepos SortMode.name repos) =
      sortedRepos SortMode.name repos :=
  List.mergeSort_of_sorted
    (List.sorted_mergeSort (repoLeb_trans SortMode.name) (repoLeb_total SortMode.name) repos)

/-- Events handled by the RepositoryList component that concern sorting and
fetching. -/
inductive RepoAction where
  | setSortBy (sortBy : SortMode)
  | usernameChanged (username : String)
  deriving DecidableEq

/-- An outbound request the component can trigger. -/
inductive RepoEffect where
  | fetchReposRequest (username : String)
  deriving DecidableEq

/-- The component's reaction to an event: a sort button click only stores the
selected mode (the reordering happens at render time on a copy of the list);
a username change re-runs the useEffect hook, which issues a repository fetch
when the username is non-empty. -/
def repoListStep (s : RepoListState) (a : RepoAction) : RepoListState × List RepoEffect :=
  match a with
  | RepoAction.setSortBy sortBy => ({ s with sortBy := sortBy }, [])
  | RepoAction.usernameChanged username =>
    if username ≠ "" then (s, [RepoEffect.fetchReposRequest username]) else (s, [])

/-- What the render pass displays: the held list re-ordered on a copy. -/
def renderedRepos (s : RepoListState) : List Repository :=
  sortedRepos s.sortBy s.repos

/-- Claim C9: selecting a sort mode is pure and non-destructive — the stored
repository list is unchanged, no fetch is triggered, and the rendered order
is a permutation of the stored list (a re-ordering of a copy, adding and
dropping nothing). -/
theorem repoListStep_sort_pure (s : RepoListState) (sortBy : SortMode) :
    (repoListStep s (RepoAction.setSortBy sortBy)).1.repos = s.repos ∧
    (repoListStep s (RepoAction.setSortBy sortBy)).2 = [] ∧
    List.Perm (renderedRepos (repoListStep s (RepoAction.setSortBy sortBy)).1) s.repos :=
  ⟨rfl, rfl, List.mergeSort_perm s.repos _⟩

/-- formatDate from the RepositoryList component, over timestamps in epoch
milliseconds; `Math.floor` of the exact float division is floor division. -/
def formatDate (now date : Int) : String :=
  let diffInDays : Int := (now - date).fdiv (1000 * 60 * 60 * 24)
  if diffInDays = 0 then "Updated today"
  else if diffInDays = 1 then "Updated yesterday"
  else if diffInDays < 7 then "Updated " ++ toString diffInDays ++ " days ago"
  else if diffInDays < 30 then "Updated " ++ toString (diffInDays.fdiv 7) ++ " weeks ago"
  else if diffInDays < 365 then "Updated " ++ toString (diffInDays.fdiv 30) ++ " months ago"
  else "Updated " ++ toString (diffInDays.fdiv 365) ++ " years ago"

/-- Modelled from the spec's words for the relative-date formatter: one of
today / yesterday / N days ago / N weeks ago / N months ago / N years ago,
chosen by day-granularity integer division with boundaries exactly 7, 30 and
365 (0d to today, 1d to yesterday, under 7d days, under 30d weeks by 7,
under 365d months by 30, else years by 365). -/
def formatDateSpec (now date : Int) : String :=
  let days : Int := (now - date).fdiv (1000 * 60 * 60 * 24)
  if days = 0 then "Updated today"
  else if days = 1 then "Updated yesterday"
  else if days < 7 then "Updated " ++ toString days ++ " days ago"
  else if days < 30 then "Updated " ++ toString (days.fdiv 7) ++ " weeks ago"
  else if days < 365 then "Updated " ++ toString (days.fdiv 30) ++ " months ago"
  else "Updated " ++ toString (days.fdiv 365) ++ " years ago"

/-- Claim C4: the formatter agrees everywhere with the spec's
day-granularity division rule, and at exactly 7 days it yields the literal
"Updated 1 weeks ago". -/
theorem formatDate_spec :
    (∀ now date : Int, formatDate now date = formatDateSpec now date) ∧
    formatDate (7 * 86400000) 0 = "Updated 1 weeks ago" := by
  refine ⟨fun now date => rfl, ?_⟩
  decide
